import Mathlib

/-
Formal model of the Mailora backend (src/server.js).

The source file contains two complete Express server variants, separated by a
document separator:
  * variant 1 (lines 1-287) serves `POST /api/generate-email`; it validates
    `language`/`tone`/`length` as required fields, rejects a missing or
    placeholder `GEMINI_API_KEY` with a 500 error, calls the Gemini API with a
    30-second abort signal, returns 408 on an abort error, and otherwise falls
    back to a template email on any failure;
  * variant 2 (lines 288-517) serves `POST /generate-email`; it only validates
    `subject`/`purpose`, short-circuits to the fallback template when no API
    key is set, calls the Gemini API with no timeout signal, and falls back on
    any thrown error.

Both variants are embedded below, in namespaces `V1` and `V2`.  JavaScript
optional values are modelled as `Option String` (with `none` for `undefined`),
and JS truthiness, `||`-defaulting, template interpolation of `undefined`,
object-literal lookup, `String.prototype.trim` and
`String.prototype.toLowerCase` are embedded explicitly.  The network call is
abstracted as a `FetchEvent` oracle describing what the single `fetch`
invocation produced; the handlers are pure functions of the request body, the
API key and that event.
-/

namespace Mailora

/-- Truthiness of an optional JS string value: `undefined` and the empty
string are falsy, every other string is truthy. -/
def truthy : Option String → Bool
  | none => false
  | some s => !(s == "")

/-- Template-literal interpolation of an optional JS string: interpolating
`undefined` produces the text "undefined". -/
def jsStr : Option String → String
  | none => "undefined"
  | some s => s

/-- JS `a || d` with a string-literal default: yields `a`'s value when `a` is
truthy, otherwise the default `d`. -/
def jsOr (a : Option String) (d : String) : String :=
  if truthy a then jsStr a else d

/-- JS `a || b` on two optional values (e.g. `subject || purpose`). -/
def jsOrO (a b : Option String) : Option String :=
  if truthy a then a else b

/-- Property lookup `tbl[key]` on a JS object literal with string values,
where the key may be `undefined`. -/
def olookup (tbl : List (String × String)) : Option String → Option String
  | none => none
  | some k => tbl.lookup k

/-- Property lookup `tbl[key]` on a JS object literal with numeric values. -/
def olookupN (tbl : List (String × Nat)) : Option String → Option Nat
  | none => none
  | some k => tbl.lookup k

/-- JS `String.prototype.trim`: remove leading and trailing whitespace. -/
def jsTrim (s : String) : String :=
  ⟨((s.data.dropWhile Char.isWhitespace).reverse.dropWhile Char.isWhitespace).reverse⟩

/-- JS `String.prototype.toLowerCase` (ASCII case folding, which is all the
server's tone strings use). -/
def jsToLower (s : String) : String :=
  ⟨s.data.map Char.toLower⟩

/-- Check that `pat` is a prefix of `s` (character lists). -/
def charsPre : List Char → List Char → Bool
  | [], _ => true
  | _ :: _, [] => false
  | a :: as, b :: bs => a == b && charsPre as bs

/-- Check that `pat` occurs as a contiguous run inside `s` (character lists). -/
def charsIn (pat : List Char) : List Char → Bool
  | [] => pat.isEmpty
  | c :: cs => charsPre pat (c :: cs) || charsIn pat cs

/-- Substring occurrence test used to state facts about compiled prompts. -/
def containsStr (s pat : String) : Bool :=
  charsIn pat.data s.data

/-- Conditional personal-note paragraph used by every fallback template:
the JS expression is the same in both variants,
`${personalNote ? personalNote + '\n\n' : ''}`. -/
def noteSeg (personalNote : Option String) : String :=
  if truthy personalNote then jsStr personalNote ++ "\n\n" else ""

/-- Decoded JSON request body of a generation request; absent JSON fields are
`none`. -/
structure ReqBody where
  recipientName : Option String := none
  subject : Option String := none
  tone : Option String := none
  personalNote : Option String := none
  length : Option String := none
  language : Option String := none
  purpose : Option String := none
deriving DecidableEq

/-- Outcome of the single `fetch` call to the Gemini endpoint, as observed by
the handler: a 2xx response (with the text at
`candidates[0].content.parts[0].text` when present), a non-2xx response, a
rejection whose error is named `AbortError`, or any other rejection. -/
inductive FetchEvent where
  | ok (text : Option String)
  | httpErr
  | abortErr
  | netErr
deriving DecidableEq

/-- Response produced by a route handler: either an error JSON with an HTTP
status and an `error` message, or a success JSON carrying the email text and
the optional `metadata.note` string. -/
inductive HandlerResult where
  | errorResp (status : Nat) (error : String)
  | emailResp (email : String) (note : Option String)
deriving DecidableEq

/-- True when the handler answered with an error JSON instead of an email. -/
def HandlerResult.isError : HandlerResult → Bool
  | .errorResp _ _ => true
  | .emailResp _ _ => false

/-- Source tag of the specification's `EmailResult`. -/
inductive EmailSource where
  | generated
  | fallback
deriving DecidableEq

/-- Spec-level source tag of a handler result.  The code marks a fallback by
attaching a `metadata.note` string to the success JSON; a provider-generated
email carries no note.  An error response carries no email at all. -/
def resultSource : HandlerResult → Option EmailSource
  | .errorResp _ _ => none
  | .emailResp _ none => some .generated
  | .emailResp _ (some _) => some .fallback

namespace V1

/-- Length table of variant 1's `createEmailPrompt` (src/server.js:195-199). -/
def lengthMap : List (String × String) :=
  [("short", "3-4 sentences"), ("medium", "5-7 sentences"), ("long", "8-10 sentences")]

/-- Language table of variant 1's `createEmailPrompt` (src/server.js:201-212). -/
def languageInstructions : List (String × String) :=
  [("en", "Write in English"),
   ("es", "Escribe en Español"),
   ("fr", "Écris en Français"),
   ("de", "Schreibe auf Deutsch"),
   ("hi", "हिंदी में लिखें"),
   ("ja", "日本語で書いてください"),
   ("zh", "用中文写"),
   ("ar", "اكتب بالعربية"),
   ("pt", "Escreva em Português"),
   ("ru", "Пишите на русском")]

/-- Body of variant 1's prompt template literal (src/server.js:214-236),
parametrised by the already-looked-up interpolation values; the enclosing
backtick literal starts and ends with a newline, removed afterwards by
`.trim()` in `createEmailPrompt`. -/
def promptCore (langInstr rcpt subj tone lenDesc : String) (personalNote : Option String) : String :=
  "\nGenerate a professional email with the following specifications:\n\nLANGUAGE: "
    ++ langInstr
    ++ "\nRECIPIENT: " ++ rcpt
    ++ "\nSUBJECT: " ++ subj
    ++ "\nTONE: " ++ tone
    ++ "\nLENGTH: " ++ lenDesc
    ++ "\n"
    ++ (if truthy personalNote then "PERSONAL NOTE TO INCLUDE: " ++ jsStr personalNote else "")
    ++ "\n\nIMPORTANT INSTRUCTIONS:\n- Start with \"Subject: [the provided subject]\"\n- Use appropriate greeting and closing for the specified language\n- Maintain "
    ++ jsToLower tone
    ++ " tone throughout\n- Sound natural and human-like\n- Be professional and appropriate for business communication\n- Include the personal note if provided\n- Format with proper line breaks and paragraphs\n- Use culturally appropriate expressions for the target language\n- Ensure grammatical correctness in the specified language\n\nGenerate only the email content without any additional explanations or markdown formatting.\n"

/-- Variant 1's `createEmailPrompt(recipientName, subject, tone, personalNote,
length, language)` (src/server.js:194-237).  Note that the length descriptor
is `lengthMap[length]` with no default (interpolating `undefined` for unknown
tiers) while the language instruction defaults to the literal "English".  The
handler validates `tone` truthy before calling, so `jsStr tone` is the tone
string on every reachable call. -/
def createEmailPrompt (recipientName subject tone personalNote length language : Option String) : String :=
  jsTrim (promptCore
    (jsOr (olookup languageInstructions language) "English")
    (jsOr recipientName "[Recipient Name]")
    (jsStr subject)
    (jsStr tone)
    (jsStr (olookup lengthMap length))
    personalNote)

/-- Variant 1's English fallback template, the `'en'` entry of the `templates`
object (src/server.js:241). -/
def enTemplate (recipientName subject personalNote : Option String) : String :=
  "Subject: " ++ jsStr subject
    ++ "\n\nDear " ++ jsStr recipientName
    ++ ",\n\nI hope this email finds you well.\n\n"
    ++ noteSeg personalNote
    ++ "Thank you for your time and consideration.\n\nBest regards,\n[Your Name]"

/-- Variant 1's `templates` object (src/server.js:240-246), built per call
from the interpolated request fields. -/
def fallbackTemplates (recipientName subject personalNote : Option String) : List (String × String) :=
  [("en", enTemplate recipientName subject personalNote),
   ("es", "Asunto: " ++ jsStr subject
      ++ "\n\nEstimado/a " ++ jsStr recipientName
      ++ ",\n\nEspero que este correo le encuentre bien.\n\n"
      ++ noteSeg personalNote
      ++ "Gracias por su tiempo y consideración.\n\nAtentamente,\n[Su Nombre]"),
   ("fr", "Objet: " ++ jsStr subject
      ++ "\n\nCher " ++ jsStr recipientName
      ++ ",\n\nJ\x27espère que ce courriel vous trouvera en bonne santé.\n\n"
      ++ noteSeg personalNote
      ++ "Merci pour votre temps et votre considération.\n\nCordialement,\n[Votre Nomme]"),
   ("de", "Betreff: " ++ jsStr subject
      ++ "\n\nSehr geehrte/r " ++ jsStr recipientName
      ++ ",\n\nIch hoffe, diese E-Mail erreicht Sie wohlbehalten.\n\n"
      ++ noteSeg personalNote
      ++ "Vielen Dank für Ihre Zeit und Ihre Überlegungen.\n\nMit freundlichen Grüßen,\n[Ihr Name]"),
   ("hi", "विषय: " ++ jsStr subject
      ++ "\n\nप्रिय " ++ jsStr recipientName
      ++ ",\n\nमुझे आशा है कि यह ईमेल आपको अच्छी तरह मिलेगा।\n\n"
      ++ noteSeg personalNote
      ++ "आपके समय और विचार के लिए धन्यवाद।\n\nसादर,\n[आपका नाम]")]

/-- Variant 1's `createFallbackEmail(recipientName, subject, tone,
personalNote, language, length)` (src/server.js:239-249): look up the language
in the per-call `templates` object, with `templates['en']` as the
`||`-default.  The `tone` and `length` parameters are accepted but unused, as
in the source. -/
def createFallbackEmail (recipientName subject tone personalNote language length : Option String) : String :=
  jsOr (olookup (fallbackTemplates recipientName subject personalNote) language)
    (enTemplate recipientName subject personalNote)

/-- Token table of variant 1's `getMaxTokens` (src/server.js:252-256). -/
def tokenMap : List (String × Nat) :=
  [("short", 800), ("medium", 1200), ("long", 1800)]

/-- Variant 1's `getMaxTokens(length)` (src/server.js:251-258):
`tokenMap[length] || 1200`. -/
def getMaxTokens (length : Option String) : Nat :=
  match olookupN tokenMap length with
  | some n => n
  | none => 1200

/-- Placeholder credential value rejected by variant 1 (src/server.js:103). -/
def apiKeyPlaceholder : String := "your_gemini_api_key_here"

/-- Timeout attached to variant 1's `fetch` call:
`signal: AbortSignal.timeout(30000)` (src/server.js:129). -/
def fetchTimeoutMs : Option Nat := some 30000

/-- Fallback success response built in variant 1's `catch` block
(src/server.js:170-189): every argument is `||`-defaulted before the call, and
the metadata note marks the fallback. -/
def fallbackResponse (b : ReqBody) : HandlerResult :=
  .emailResp
    (createFallbackEmail
      (some (jsOr b.recipientName "[Recipient Name]"))
      (some (jsOr (jsOrO b.subject b.purpose) "Email"))
      (some (jsOr b.tone "Professional"))
      (some (jsOr b.personalNote ""))
      (some (jsOr b.language "en"))
      (some (jsOr b.length "medium")))
    (some "Generated using fallback method")

/-- Variant 1's `POST /api/generate-email` handler (src/server.js:75-191) as a
function of the decoded body, the `GEMINI_API_KEY` environment value and the
fetch outcome.  Control flow from the source: reject when both `subject` and
`purpose` are falsy (400); reject when any of `language`, `tone`, `length` is
falsy (400); reject a falsy or placeholder API key (500); then dispatch on the
fetch outcome — a 2xx response with well-formed text is returned verbatim with
no note, an abort-named rejection returns 408, and every other failure
(non-2xx status, malformed body, other rejection) is caught and answered with
the fallback response. -/
def postGenerateEmail (b : ReqBody) (apiKey : Option String) (ev : FetchEvent) : HandlerResult :=
  if !truthy b.subject && !truthy b.purpose then
    .errorResp 400 "Email subject or purpose is required"
  else if !truthy b.language || !truthy b.tone || !truthy b.length then
    .errorResp 400 "Language, tone, and length are required fields"
  else if !truthy apiKey || apiKey == some apiKeyPlaceholder then
    .errorResp 500 "API configuration error - Please set GEMINI_API_KEY in environment variables"
  else
    match ev with
    | .ok (some t) => .emailResp t none
    | .ok none => fallbackResponse b
    | .httpErr => fallbackResponse b
    | .abortErr => .errorResp 408 "Request timeout. Please try again."
    | .netErr => fallbackResponse b

/-- Reachability of variant 1's `fetch` call: the handler issues the outbound
request exactly when all three guards before it pass. -/
def attemptsFetch (b : ReqBody) (apiKey : Option String) : Bool :=
  (truthy b.subject || truthy b.purpose)
    && (truthy b.language && truthy b.tone && truthy b.length)
    && (truthy apiKey && !(apiKey == some apiKeyPlaceholder))

end V1

namespace V2

/-- Length table of variant 2's `createEmailPrompt` (src/server.js:435-439),
identical to variant 1's. -/
def lengthMap : List (String × String) :=
  [("short", "3-4 sentences"), ("medium", "5-7 sentences"), ("long", "8-10 sentences")]

/-- Language table of variant 2's `createEmailPrompt` (src/server.js:441-452):
plain English display names. -/
def languageMap : List (String × String) :=
  [("en", "English"),
   ("es", "Spanish"),
   ("fr", "French"),
   ("de", "German"),
   ("hi", "Hindi"),
   ("ja", "Japanese"),
   ("zh", "Chinese"),
   ("ar", "Arabic"),
   ("pt", "Portuguese"),
   ("ru", "Russian")]

/-- Variant 2's prompt template literal (src/server.js:454-474), parametrised
by the already-looked-up interpolation values.  The language name is
interpolated twice, and the literal is returned untrimmed (it begins and ends
with a newline). -/
def promptCore (langName rcpt subj tone lenDesc : String) (personalNote : Option String) : String :=
  "\nCreate a professional email in "
    ++ langName
    ++ " with these details:\n\nRECIPIENT: " ++ rcpt
    ++ "\nSUBJECT: " ++ subj
    ++ "\nTONE: " ++ tone
    ++ "\nLENGTH: " ++ lenDesc
    ++ "\nLANGUAGE: " ++ langName
    ++ "\n"
    ++ (if truthy personalNote then "ADDITIONAL CONTEXT: " ++ jsStr personalNote else "")
    ++ "\n\nRequirements:\n- Start with \"Subject: " ++ subj
    ++ "\"\n- Use appropriate greeting and closing\n- Maintain " ++ tone
    ++ " tone throughout\n- Sound natural and human-like\n- Be professional for business communication\n- Include the additional context if provided\n- Use proper formatting with line breaks\n\nGenerate only the email content without any explanations.\n"

/-- Variant 2's `createEmailPrompt(recipientName, subject, tone, personalNote,
length, language)` (src/server.js:434-475).  As in variant 1, the length
descriptor is `lengthMap[length]` with no default, while the language name is
`languageMap[language] || 'English'`. -/
def createEmailPrompt (recipientName subject tone personalNote length language : Option String) : String :=
  promptCore
    (jsOr (olookup languageMap language) "English")
    (jsOr recipientName "Customer")
    (jsStr subject)
    (jsStr tone)
    (jsStr (olookup lengthMap length))
    personalNote

/-- Variant 2's English fallback template, the `'en'` entry of the `templates`
object (src/server.js:479); unlike variant 1 it defaults the recipient to
"Customer" inside the template. -/
def enTemplate (recipientName subject personalNote : Option String) : String :=
  "Subject: " ++ jsStr subject
    ++ "\n\nDear " ++ jsOr recipientName "Customer"
    ++ ",\n\nI hope this email finds you well.\n\n"
    ++ noteSeg personalNote
    ++ "Thank you for your time and consideration.\n\nBest regards,\n[Your Name]"

/-- Variant 2's `templates` object (src/server.js:478-482): entries for
`en`, `hi`, `es` only. -/
def fallbackTemplates (recipientName subject personalNote : Option String) : List (String × String) :=
  [("en", enTemplate recipientName subject personalNote),
   ("hi", "विषय: " ++ jsStr subject
      ++ "\n\nप्रिय " ++ jsOr recipientName "ग्राहक"
      ++ ",\n\nमुझे आशा है कि यह ईमेल आपको अच्छी तरह मिलेगा।\n\n"
      ++ noteSeg personalNote
      ++ "आपके समय और विचार के लिए धन्यवाद।\n\nसादर,\n[आपका नाम]"),
   ("es", "Asunto: " ++ jsStr subject
      ++ "\n\nEstimado/a " ++ jsOr recipientName "Cliente"
      ++ ",\n\nEspero que este correo le encuentre bien.\n\n"
      ++ noteSeg personalNote
      ++ "Gracias por su tiempo y consideración.\n\nAtentamente,\n[Su Nombre]")]

/-- Variant 2's `createFallbackEmail(recipientName, subject, tone,
personalNote, language, length)` (src/server.js:477-485):
`templates[language] || templates['en']`; `tone` and `length` are unused. -/
def createFallbackEmail (recipientName subject tone personalNote language length : Option String) : String :=
  jsOr (olookup (fallbackTemplates recipientName subject personalNote) language)
    (enTemplate recipientName subject personalNote)

/-- Token table of variant 2's `getMaxTokens` (src/server.js:488-492). -/
def tokenMap : List (String × Nat) :=
  [("short", 800), ("medium", 1200), ("long", 1800)]

/-- Variant 2's `getMaxTokens(length)` (src/server.js:487-494):
`tokenMap[length] || 1200`. -/
def getMaxTokens (length : Option String) : Nat :=
  match olookupN tokenMap length with
  | some n => n
  | none => 1200

/-- Timeout attached to variant 2's `fetch` call inside `generateWithGemini`
(src/server.js:397-418): the request options carry no `signal`, so the call is
unbounded. -/
def fetchTimeoutMs : Option Nat := none

/-- Variant 2's `POST /generate-email` handler (src/server.js:321-390) as a
function of the decoded body, the `GEMINI_API_KEY` environment value and the
fetch outcome.  Control flow from the source: reject when both `subject` and
`purpose` are falsy (400); when the API key is falsy, answer immediately with
the fallback template and the note "Fallback email (API key not set)" without
calling `generateWithGemini`; otherwise a 2xx response with well-formed text
is returned verbatim with no note, and every thrown error — non-2xx status,
malformed body, or any rejection (there is no abort branch in this variant) —
is caught and answered with the fallback template and the note "Generated
using fallback method". -/
def postGenerateEmail (b : ReqBody) (apiKey : Option String) (ev : FetchEvent) : HandlerResult :=
  if !truthy b.subject && !truthy b.purpose then
    .errorResp 400 "Email subject or purpose is required"
  else if !truthy apiKey then
    .emailResp
      (createFallbackEmail b.recipientName (jsOrO b.subject b.purpose) b.tone b.personalNote b.language b.length)
      (some "Fallback email (API key not set)")
  else
    match ev with
    | .ok (some t) => .emailResp t none
    | .ok none =>
        .emailResp
          (createFallbackEmail b.recipientName (jsOrO b.subject b.purpose) b.tone b.personalNote b.language b.length)
          (some "Generated using fallback method")
    | .httpErr =>
        .emailResp
          (createFallbackEmail b.recipientName (jsOrO b.subject b.purpose) b.tone b.personalNote b.language b.length)
          (some "Generated using fallback method")
    | .abortErr =>
        .emailResp
          (createFallbackEmail b.recipientName (jsOrO b.subject b.purpose) b.tone b.personalNote b.language b.length)
          (some "Generated using fallback method")
    | .netErr =>
        .emailResp
          (createFallbackEmail b.recipientName (jsOrO b.subject b.purpose) b.tone b.personalNote b.language b.length)
          (some "Generated using fallback method")

/-- Reachability of variant 2's `fetch` call (inside `generateWithGemini`):
the outbound request is issued exactly when validation passes and the API key
is truthy. -/
def attemptsFetch (b : ReqBody) (apiKey : Option String) : Bool :=
  (truthy b.subject || truthy b.purpose) && truthy apiKey

end V2

set_option maxRecDepth 10000

/-- Claim C1, as stated, fails on the code: in the `/api/generate-email`
variant, a valid request (non-empty subject) handled with no credential
present is answered with a 500 error response naming the missing
configuration — the missing credential IS surfaced to the caller as an error,
and no fallback result is produced. -/
theorem c1_counterexample :
    V1.postGenerateEmail
        { subject := some "Project Update", tone := some "casual",
          length := some "short", language := some "en" } none .httpErr
      = .errorResp 500 "API configuration error - Please set GEMINI_API_KEY in environment variables"
    ∧ resultSource (V1.postGenerateEmail
        { subject := some "Project Update", tone := some "casual",
          length := some "short", language := some "en" } none .httpErr)
      ≠ some .fallback := by
  exact ⟨by decide, by decide⟩

/-- Claim C1, amended: only the `/generate-email` variant behaves as claimed,
and only for an absent or empty credential (the placeholder value is treated
as usable there).  For every valid request with a falsy credential, that
handler answers with the fallback template and the note
"Fallback email (API key not set)", the response does not depend on any
network outcome, the fetch call is never reached, and the result's source is
Fallback.  The `/api/generate-email` variant instead surfaces a 500 error. -/
theorem c1_amended (b : ReqBody) (k : Option String) (ev ev' : FetchEvent)
    (hval : truthy b.subject = true ∨ truthy b.purpose = true)
    (hkey : truthy k = false) :
    V2.postGenerateEmail b k ev
        = .emailResp
            (V2.createFallbackEmail b.recipientName (jsOrO b.subject b.purpose)
              b.tone b.personalNote b.language b.length)
            (some "Fallback email (API key not set)")
      ∧ V2.postGenerateEmail b k ev = V2.postGenerateEmail b k ev'
      ∧ V2.attemptsFetch b k = false
      ∧ resultSource (V2.postGenerateEmail b k ev) = some .fallback := by
  have h1 : (!truthy b.subject && !truthy b.purpose) = false := by
    rcases hval with h | h <;> simp [h]
  have key : ∀ e : FetchEvent,
      V2.postGenerateEmail b k e
        = .emailResp
            (V2.createFallbackEmail b.recipientName (jsOrO b.subject b.purpose)
              b.tone b.personalNote b.language b.length)
            (some "Fallback email (API key not set)") := by
    intro e
    simp [V2.postGenerateEmail, h1, hkey]
  refine ⟨key ev, (key ev).trans (key ev').symm, ?_, ?_⟩
  · simp [V2.attemptsFetch, hkey]
  · rw [key ev]
    rfl

/-- Witness for `c1_amended` at a concrete request with no API key. -/
theorem c1_amended_witness :
    truthy (some "Project Update") = true
    ∧ truthy (none : Option String) = false
    ∧ (V2.postGenerateEmail { subject := some "Project Update" } none .httpErr
          = .emailResp
              (V2.createFallbackEmail none (jsOrO (some "Project Update") none)
                none none none none)
              (some "Fallback email (API key not set)")
        ∧ V2.postGenerateEmail { subject := some "Project Update" } none .httpErr
            = V2.postGenerateEmail { subject := some "Project Update" } none .netErr
        ∧ V2.attemptsFetch { subject := some "Project Update" } none = false
        ∧ resultSource (V2.postGenerateEmail { subject := some "Project Update" } none .httpErr)
            = some .fallback) :=
  ⟨by decide, by decide,
    c1_amended { subject := some "Project Update" } none .httpErr .netErr
      (Or.inl (by decide)) (by decide)⟩

/-- Claim C2, as stated, fails on the code: in the `/api/generate-email`
variant, a request with a non-empty subject but with `tone`, `length` and
`language` absent is rejected with a 400 validation error instead of being
normalized to defaults. -/
theorem c2_counterexample :
    V1.postGenerateEmail { subject := some "Hello" } (some "real-key") (.ok (some "text"))
      = .errorResp 400 "Language, tone, and length are required fields" := by
  decide

/-- Claim C2, amended: only the `/generate-email` variant never fails
validation on absent optional fields — for every request whose subject or
purpose is non-empty, that handler's answer is never an error response,
whatever the credential and network outcome (defaults are applied inside the
templates).  The `/api/generate-email` variant rejects absent
`language`/`tone`/`length` with a 400 error. -/
theorem c2_amended (b : ReqBody) (k : Option String) (ev : FetchEvent)
    (hval : truthy b.subject = true ∨ truthy b.purpose = true) :
    (V2.postGenerateEmail b k ev).isError = false := by
  have h1 : (!truthy b.subject && !truthy b.purpose) = false := by
    rcases hval with h | h <;> simp [h]
  unfold V2.postGenerateEmail
  rw [h1]
  simp only [Bool.false_eq_true, if_false]
  split
  · rfl
  · split <;> rfl

/-- Witness for `c2_amended` at a request carrying only a purpose, with all
optional fields absent. -/
theorem c2_amended_witness :
    truthy (some "renew my subscription") = true
    ∧ (V2.postGenerateEmail { purpose := some "renew my subscription" } none .httpErr).isError
        = false :=
  ⟨by decide,
    c2_amended { purpose := some "renew my subscription" } none .httpErr
      (Or.inr (by decide))⟩

/-- Claim C3, as stated, fails on the code: in the `/api/generate-email`
variant — the only one whose fetch carries the 30-second abort signal — an
expired call (a rejection named `AbortError`) is answered with a 408 timeout
error surfaced to the caller, not with a fallback result. -/
theorem c3_counterexample :
    V1.fetchTimeoutMs = some 30000
    ∧ V1.postGenerateEmail
        { subject := some "Hi", tone := some "Professional",
          length := some "medium", language := some "en" } (some "real-key") .abortErr
      = .errorResp 408 "Request timeout. Please try again."
    ∧ resultSource (V1.postGenerateEmail
        { subject := some "Hi", tone := some "Professional",
          length := some "medium", language := some "en" } (some "real-key") .abortErr)
      ≠ some .fallback := by
  exact ⟨rfl, by decide, by decide⟩

/-- Claim C3, amended: the fixed 30-second bound exists only in the
`/api/generate-email` variant, which surfaces expiry as a 408 error; the
`/generate-email` variant issues its call with no timeout bound at all, and
any aborted or failed call there produces a Fallback result with the metadata
note "Generated using fallback method". -/
theorem c3_amended (b : ReqBody) (k : Option String)
    (hval : truthy b.subject = true ∨ truthy b.purpose = true)
    (hkey : truthy k = true) :
    V1.fetchTimeoutMs = some 30000
    ∧ V2.fetchTimeoutMs = none
    ∧ V2.postGenerateEmail b k .abortErr
        = .emailResp
            (V2.createFallbackEmail b.recipientName (jsOrO b.subject b.purpose)
              b.tone b.personalNote b.language b.length)
            (some "Generated using fallback method")
    ∧ resultSource (V2.postGenerateEmail b k .abortErr) = some .fallback := by
  have h1 : (!truthy b.subject && !truthy b.purpose) = false := by
    rcases hval with h | h <;> simp [h]
  have key : V2.postGenerateEmail b k .abortErr
      = .emailResp
          (V2.createFallbackEmail b.recipientName (jsOrO b.subject b.purpose)
            b.tone b.personalNote b.language b.length)
          (some "Generated using fallback method") := by
    simp [V2.postGenerateEmail, h1, hkey]
  refine ⟨rfl, rfl, key, ?_⟩
  rw [key]
  rfl

/-- Witness for `c3_amended` at a concrete request with a configured key. -/
theorem c3_amended_witness :
    truthy (some "Hi") = true
    ∧ truthy (some "real-key") = true
    ∧ (V1.fetchTimeoutMs = some 30000
        ∧ V2.fetchTimeoutMs = none
        ∧ V2.postGenerateEmail { subject := some "Hi" } (some "real-key") .abortErr
            = .emailResp
                (V2.createFallbackEmail none (jsOrO (some "Hi") none) none none none none)
                (some "Generated using fallback method")
        ∧ resultSource (V2.postGenerateEmail { subject := some "Hi" } (some "real-key") .abortErr)
            = some .fallback) :=
  ⟨by decide, by decide,
    c3_amended { subject := some "Hi" } (some "real-key")
      (Or.inl (by decide)) (by decide)⟩

/-- Claim C5, as stated, fails on the code: for a `length` outside
{short, medium, long} the token cap does fall back to the medium value 1200,
but the compiled instruction text of both variants contains the literal
"LENGTH: undefined" (the length table lookup is interpolated with no default)
and does not contain the medium descriptor "5-7 sentences". -/
theorem c5_counterexample :
    containsStr (V1.createEmailPrompt (some "Bob") (some "Meeting") (some "Professional")
        none (some "extra-long") (some "en")) "5-7 sentences" = false
    ∧ containsStr (V1.createEmailPrompt (some "Bob") (some "Meeting") (some "Professional")
        none (some "extra-long") (some "en")) "LENGTH: undefined" = true
    ∧ containsStr (V2.createEmailPrompt (some "Bob") (some "Meeting") (some "Professional")
        none (some "extra-long") (some "en")) "5-7 sentences" = false
    ∧ containsStr (V2.createEmailPrompt (some "Bob") (some "Meeting") (some "Professional")
        none (some "extra-long") (some "en")) "LENGTH: undefined" = true
    ∧ V1.getMaxTokens (some "extra-long") = 1200
    ∧ V2.getMaxTokens (some "extra-long") = 1200 := by
  exact ⟨by decide, by decide, by decide, by decide, by decide, by decide⟩

/-- Claim C5, amended: for every `length` value not in {short, medium, long},
both variants use the medium output-size cap of 1200 tokens, but the compiled
instruction text interpolates the literal "undefined" as the sentence-count
descriptor instead of the medium entry. -/
theorem c5_amended (rn s t p len lang : Option String)
    (h : len ≠ some "short" ∧ len ≠ some "medium" ∧ len ≠ some "long") :
    V1.getMaxTokens len = 1200
    ∧ V2.getMaxTokens len = 1200
    ∧ V1.createEmailPrompt rn s t p len lang
        = jsTrim (V1.promptCore (jsOr (olookup V1.languageInstructions lang) "English")
            (jsOr rn "[Recipient Name]") (jsStr s) (jsStr t) "undefined" p)
    ∧ V2.createEmailPrompt rn s t p len lang
        = V2.promptCore (jsOr (olookup V2.languageMap lang) "English")
            (jsOr rn "Customer") (jsStr s) (jsStr t) "undefined" p := by
  obtain ⟨h1, h2, h3⟩ := h
  have hs : ∀ x : String, len = some x → (x = "short" ∨ x = "medium" ∨ x = "long") → False := by
    intro x hx hor
    rcases hor with e | e | e <;> subst e
    · exact h1 hx
    · exact h2 hx
    · exact h3 hx
  have hlook : ∀ tbl : List (String × String),
      tbl = [("short", "3-4 sentences"), ("medium", "5-7 sentences"), ("long", "8-10 sentences")] →
      olookup tbl len = none := by
    intro tbl htbl
    subst htbl
    cases len with
    | none => rfl
    | some x =>
        have e1 : (x == "short") = false := by
          simp only [beq_eq_false_iff_ne, ne_eq]
          exact fun e => hs x rfl (Or.inl e)
        have e2 : (x == "medium") = false := by
          simp only [beq_eq_false_iff_ne, ne_eq]
          exact fun e => hs x rfl (Or.inr (Or.inl e))
        have e3 : (x == "long") = false := by
          simp only [beq_eq_false_iff_ne, ne_eq]
          exact fun e => hs x rfl (Or.inr (Or.inr e))
        simp [olookup, List.lookup, e1, e2, e3]
  have hlookN : ∀ tbl : List (String × Nat),
      tbl = [("short", 800), ("medium", 1200), ("long", 1800)] →
      olookupN tbl len = none := by
    intro tbl htbl
    subst htbl
    cases len with
    | none => rfl
    | some x =>
        have e1 : (x == "short") = false := by
          simp only [beq_eq_false_iff_ne, ne_eq]
          exact fun e => hs x rfl (Or.inl e)
        have e2 : (x == "medium") = false := by
          simp only [beq_eq_false_iff_ne, ne_eq]
          exact fun e => hs x rfl (Or.inr (Or.inl e))
        have e3 : (x == "long") = false := by
          simp only [beq_eq_false_iff_ne, ne_eq]
          exact fun e => hs x rfl (Or.inr (Or.inr e))
        simp [olookupN, List.lookup, e1, e2, e3]
  refine ⟨?_, ?_, ?_, ?_⟩
  · unfold V1.getMaxTokens
    rw [show olookupN V1.tokenMap len = none from hlookN V1.tokenMap rfl]
  · unfold V2.getMaxTokens
    rw [show olookupN V2.tokenMap len = none from hlookN V2.tokenMap rfl]
  · unfold V1.createEmailPrompt
    rw [show olookup V1.lengthMap len = none from hlook V1.lengthMap rfl]
    rfl
  · unfold V2.createEmailPrompt
    rw [show olookup V2.lengthMap len = none from hlook V2.lengthMap rfl]
    rfl

/-- Witness for `c5_amended` at the unknown length tier "extra-long". -/
theorem c5_amended_witness :
    ((some "extra-long" : Option String) ≠ some "short"
      ∧ (some "extra-long" : Option String) ≠ some "medium"
      ∧ (some "extra-long" : Option String) ≠ some "long")
    ∧ (V1.getMaxTokens (some "extra-long") = 1200
        ∧ V2.getMaxTokens (some "extra-long") = 1200
        ∧ V1.createEmailPrompt (some "Bob") (some "Meeting") (some "Professional")
              none (some "extra-long") (some "en")
            = jsTrim (V1.promptCore
                (jsOr (olookup V1.languageInstructions (some "en")) "English")
                (jsOr (some "Bob") "[Recipient Name]") (jsStr (some "Meeting"))
                (jsStr (some "Professional")) "undefined" none)
        ∧ V2.createEmailPrompt (some "Bob") (some "Meeting") (some "Professional")
              none (some "extra-long") (some "en")
            = V2.promptCore (jsOr (olookup V2.languageMap (some "en")) "English")
                (jsOr (some "Bob") "Customer") (jsStr (some "Meeting"))
                (jsStr (some "Professional")) "undefined" none) :=
  ⟨⟨by decide, by decide, by decide⟩,
    c5_amended (some "Bob") (some "Meeting") (some "Professional") none
      (some "extra-long") (some "en") ⟨by decide, by decide, by decide⟩⟩

/-- Claim C6, as stated, fails on the code: for a language code absent from
the lookup tables (here "qq"), neither variant's compiled instruction text
contains the raw code anywhere — the language directive falls back to the
bare word "English" and the requested code is dropped. -/
theorem c6_counterexample :
    containsStr (V1.createEmailPrompt (some "Bob") (some "Meeting") (some "Formal")
        none (some "short") (some "qq")) "qq" = false
    ∧ containsStr (V1.createEmailPrompt (some "Bob") (some "Meeting") (some "Formal")
        none (some "short") (some "qq")) "LANGUAGE: English" = true
    ∧ containsStr (V2.createEmailPrompt (some "Bob") (some "Meeting") (some "Formal")
        none (some "short") (some "qq")) "qq" = false
    ∧ containsStr (V2.createEmailPrompt (some "Bob") (some "Meeting") (some "Formal")
        none (some "short") (some "qq")) "LANGUAGE: English" = true := by
  exact ⟨by decide, by decide, by decide, by decide⟩

/-- Claim C6, amended: for every language code not present in the language
lookup table, both variants compile the instruction text with the literal
"English" as the language directive; the raw requested code is not passed
through. -/
theorem c6_amended (rn s t p len lang : Option String)
    (h1 : olookup V1.languageInstructions lang = none)
    (h2 : olookup V2.languageMap lang = none) :
    V1.createEmailPrompt rn s t p len lang
      = jsTrim (V1.promptCore "English" (jsOr rn "[Recipient Name]") (jsStr s)
          (jsStr t) (jsStr (olookup V1.lengthMap len)) p)
    ∧ V2.createEmailPrompt rn s t p len lang
      = V2.promptCore "English" (jsOr rn "Customer") (jsStr s) (jsStr t)
          (jsStr (olookup V2.lengthMap len)) p := by
  constructor
  · unfold V1.createEmailPrompt
    rw [h1]
    rfl
  · unfold V2.createEmailPrompt
    rw [h2]
    rfl

/-- Witness for `c6_amended` at the unknown language code "qq". -/
theorem c6_amended_witness :
    olookup V1.languageInstructions (some "qq") = none
    ∧ olookup V2.languageMap (some "qq") = none
    ∧ (V1.createEmailPrompt (some "Bob") (some "Meeting") (some "Formal")
          none (some "short") (some "qq")
        = jsTrim (V1.promptCore "English" (jsOr (some "Bob") "[Recipient Name]")
            (jsStr (some "Meeting")) (jsStr (some "Formal"))
            (jsStr (olookup V1.lengthMap (some "short"))) none)
      ∧ V2.createEmailPrompt (some "Bob") (some "Meeting") (some "Formal")
            none (some "short") (some "qq")
          = V2.promptCore "English" (jsOr (some "Bob") "Customer")
              (jsStr (some "Meeting")) (jsStr (some "Formal"))
              (jsStr (olookup V2.lengthMap (some "short"))) none) :=
  ⟨by decide, by decide,
    c6_amended (some "Bob") (some "Meeting") (some "Formal") none
      (some "short") (some "qq") (by decide) (by decide)⟩

/-- Claim C4 holds on both variants: when subject and purpose are both empty
(or absent), each handler rejects the request with the 400 validation message,
and the result carries no generated or fallback email text (its source tag is
empty). -/
theorem c4_missing_subject_rejected (b : ReqBody) (k : Option String) (ev : FetchEvent)
    (hs : truthy b.subject = false) (hp : truthy b.purpose = false) :
    V1.postGenerateEmail b k ev = .errorResp 400 "Email subject or purpose is required"
    ∧ V2.postGenerateEmail b k ev = .errorResp 400 "Email subject or purpose is required"
    ∧ resultSource (V1.postGenerateEmail b k ev) = none
    ∧ resultSource (V2.postGenerateEmail b k ev) = none := by
  have h1 : (!truthy b.subject && !truthy b.purpose) = true := by simp [hs, hp]
  have hv1 : V1.postGenerateEmail b k ev = .errorResp 400 "Email subject or purpose is required" := by
    unfold V1.postGenerateEmail
    rw [h1]
    rfl
  have hv2 : V2.postGenerateEmail b k ev = .errorResp 400 "Email subject or purpose is required" := by
    unfold V2.postGenerateEmail
    rw [h1]
    rfl
  refine ⟨hv1, hv2, ?_, ?_⟩
  · rw [hv1]
    rfl
  · rw [hv2]
    rfl

/-- Witness for `c4_missing_subject_rejected` at a request whose subject is
the empty string and whose purpose is absent, with a configured key and a
well-formed provider response. -/
theorem c4_witness :
    truthy (some "") = false
    ∧ truthy (none : Option String) = false
    ∧ (V1.postGenerateEmail { subject := some "" } (some "real-key") (.ok (some "text"))
          = .errorResp 400 "Email subject or purpose is required"
        ∧ V2.postGenerateEmail { subject := some "" } (some "real-key") (.ok (some "text"))
            = .errorResp 400 "Email subject or purpose is required"
        ∧ resultSource (V1.postGenerateEmail { subject := some "" } (some "real-key") (.ok (some "text")))
            = none
        ∧ resultSource (V2.postGenerateEmail { subject := some "" } (some "real-key") (.ok (some "text")))
            = none) :=
  ⟨by decide, by decide,
    c4_missing_subject_rejected { subject := some "" } (some "real-key") (.ok (some "text"))
      (by decide) (by decide)⟩

/-- Claim C7 holds: prompt compilation and fallback synthesis are pure and
deterministic in both variants — two calls with componentwise-identical
request fields produce byte-identical instruction strings and byte-identical
fallback texts (the embedded functions consume nothing but their arguments
and the static tables). -/
theorem c7_determinism (rn s t p len lang rn2 s2 t2 p2 len2 lang2 : Option String)
    (h : rn = rn2 ∧ s = s2 ∧ t = t2 ∧ p = p2 ∧ len = len2 ∧ lang = lang2) :
    V1.createEmailPrompt rn s t p len lang = V1.createEmailPrompt rn2 s2 t2 p2 len2 lang2
    ∧ V2.createEmailPrompt rn s t p len lang = V2.createEmailPrompt rn2 s2 t2 p2 len2 lang2
    ∧ V1.createFallbackEmail rn s t p lang len = V1.createFallbackEmail rn2 s2 t2 p2 lang2 len2
    ∧ V2.createFallbackEmail rn s t p lang len = V2.createFallbackEmail rn2 s2 t2 p2 lang2 len2 := by
  obtain ⟨e1, e2, e3, e4, e5, e6⟩ := h
  subst e1
  subst e2
  subst e3
  subst e4
  subst e5
  subst e6
  exact ⟨rfl, rfl, rfl, rfl⟩

/-- Witness for `c7_determinism` at two identical concrete argument lists. -/
theorem c7_determinism_witness :
    ((some "Ann" : Option String) = some "Ann" ∧ (some "Hi" : Option String) = some "Hi"
      ∧ (some "casual" : Option String) = some "casual" ∧ (none : Option String) = none
      ∧ (some "short" : Option String) = some "short" ∧ (some "en" : Option String) = some "en")
    ∧ (V1.createEmailPrompt (some "Ann") (some "Hi") (some "casual") none (some "short") (some "en")
          = V1.createEmailPrompt (some "Ann") (some "Hi") (some "casual") none (some "short") (some "en")
        ∧ V2.createEmailPrompt (some "Ann") (some "Hi") (some "casual") none (some "short") (some "en")
            = V2.createEmailPrompt (some "Ann") (some "Hi") (some "casual") none (some "short") (some "en")
        ∧ V1.createFallbackEmail (some "Ann") (some "Hi") (some "casual") none (some "en") (some "short")
            = V1.createFallbackEmail (some "Ann") (some "Hi") (some "casual") none (some "en") (some "short")
        ∧ V2.createFallbackEmail (some "Ann") (some "Hi") (some "casual") none (some "en") (some "short")
            = V2.createFallbackEmail (some "Ann") (some "Hi") (some "casual") none (some "en") (some "short")) :=
  ⟨⟨rfl, rfl, rfl, rfl, rfl, rfl⟩,
    c7_determinism (some "Ann") (some "Hi") (some "casual") none (some "short") (some "en")
      (some "Ann") (some "Hi") (some "casual") none (some "short") (some "en")
      ⟨rfl, rfl, rfl, rfl, rfl, rfl⟩⟩

/-- Claim C8 holds: for every language code not among the template keys (and
also for an absent language), both variants' fallback synthesizers return the
complete English skeleton — the literal subject line, the "Dear" greeting, the
body sentence, the optional note paragraph, the closing and the "[Your Name]"
signature placeholder — and the result is never the empty string. -/
theorem c8_unknown_language_english_skeleton (rn s t p len lang : Option String)
    (h : lang ≠ some "en" ∧ lang ≠ some "es" ∧ lang ≠ some "fr"
      ∧ lang ≠ some "de" ∧ lang ≠ some "hi") :
    V1.createFallbackEmail rn s t p lang len
      = "Subject: " ++ jsStr s ++ "\n\nDear " ++ jsStr rn
        ++ ",\n\nI hope this email finds you well.\n\n" ++ noteSeg p
        ++ "Thank you for your time and consideration.\n\nBest regards,\n[Your Name]"
    ∧ V2.createFallbackEmail rn s t p lang len
      = "Subject: " ++ jsStr s ++ "\n\nDear " ++ jsOr rn "Customer"
        ++ ",\n\nI hope this email finds you well.\n\n" ++ noteSeg p
        ++ "Thank you for your time and consideration.\n\nBest regards,\n[Your Name]"
    ∧ V1.createFallbackEmail rn s t p lang len ≠ ""
    ∧ V2.createFallbackEmail rn s t p lang len ≠ "" := by
  obtain ⟨h1, h2, h3, h4, h5⟩ := h
  have hbeq : ∀ x : String, lang = some x →
      (x == "en") = false ∧ (x == "es") = false ∧ (x == "fr") = false
        ∧ (x == "de") = false ∧ (x == "hi") = false := by
    intro x hx
    subst hx
    refine ⟨?_, ?_, ?_, ?_, ?_⟩ <;> simp only [beq_eq_false_iff_ne, ne_eq]
    · exact fun e => h1 (by rw [e])
    · exact fun e => h2 (by rw [e])
    · exact fun e => h3 (by rw [e])
    · exact fun e => h4 (by rw [e])
    · exact fun e => h5 (by rw [e])
  have hl1 : olookup (V1.fallbackTemplates rn s p) lang = none := by
    cases lang with
    | none => rfl
    | some x =>
        obtain ⟨e1, e2, e3, e4, e5⟩ := hbeq x rfl
        simp [olookup, List.lookup, V1.fallbackTemplates, e1, e2, e3, e4, e5]
  have hl2 : olookup (V2.fallbackTemplates rn s p) lang = none := by
    cases lang with
    | none => rfl
    | some x =>
        obtain ⟨e1, e2, e3, e4, e5⟩ := hbeq x rfl
        simp [olookup, List.lookup, V2.fallbackTemplates, e1, e2, e5]
  have q1 : V1.createFallbackEmail rn s t p lang len
      = "Subject: " ++ jsStr s ++ "\n\nDear " ++ jsStr rn
        ++ ",\n\nI hope this email finds you well.\n\n" ++ noteSeg p
        ++ "Thank you for your time and consideration.\n\nBest regards,\n[Your Name]" := by
    unfold V1.createFallbackEmail
    rw [hl1]
    rfl
  have q2 : V2.createFallbackEmail rn s t p lang len
      = "Subject: " ++ jsStr s ++ "\n\nDear " ++ jsOr rn "Customer"
        ++ ",\n\nI hope this email finds you well.\n\n" ++ noteSeg p
        ++ "Thank you for your time and consideration.\n\nBest regards,\n[Your Name]" := by
    unfold V2.createFallbackEmail
    rw [hl2]
    rfl
  have h9 : ("Subject: " : String).length = 9 := by decide
  refine ⟨q1, q2, ?_, ?_⟩
  · rw [q1]
    intro hc
    have hlen := congrArg String.length hc
    simp only [String.length_append] at hlen
    rw [h9] at hlen
    simp only [show ("" : String).length = 0 from rfl] at hlen
    omega
  · rw [q2]
    intro hc
    have hlen := congrArg String.length hc
    simp only [String.length_append] at hlen
    rw [h9] at hlen
    simp only [show ("" : String).length = 0 from rfl] at hlen
    omega

/-- Witness for `c8_unknown_language_english_skeleton` at the unknown code
"qq". -/
theorem c8_witness :
    ((some "qq" : Option String) ≠ some "en" ∧ (some "qq" : Option String) ≠ some "es"
      ∧ (some "qq" : Option String) ≠ some "fr" ∧ (some "qq" : Option String) ≠ some "de"
      ∧ (some "qq" : Option String) ≠ some "hi")
    ∧ (V1.createFallbackEmail (some "Ann") (some "Hi") (some "casual") (some "See you soon")
            (some "qq") (some "short")
        = "Subject: " ++ jsStr (some "Hi") ++ "\n\nDear " ++ jsStr (some "Ann")
          ++ ",\n\nI hope this email finds you well.\n\n" ++ noteSeg (some "See you soon")
          ++ "Thank you for your time and consideration.\n\nBest regards,\n[Your Name]"
      ∧ V2.createFallbackEmail (some "Ann") (some "Hi") (some "casual") (some "See you soon")
            (some "qq") (some "short")
          = "Subject: " ++ jsStr (some "Hi") ++ "\n\nDear " ++ jsOr (some "Ann") "Customer"
            ++ ",\n\nI hope this email finds you well.\n\n" ++ noteSeg (some "See you soon")
            ++ "Thank you for your time and consideration.\n\nBest regards,\n[Your Name]"
      ∧ V1.createFallbackEmail (some "Ann") (some "Hi") (some "casual") (some "See you soon")
            (some "qq") (some "short") ≠ ""
      ∧ V2.createFallbackEmail (some "Ann") (some "Hi") (some "casual") (some "See you soon")
            (some "qq") (some "short") ≠ "") :=
  ⟨⟨by decide, by decide, by decide, by decide, by decide⟩,
    c8_unknown_language_english_skeleton (some "Ann") (some "Hi") (some "casual")
      (some "See you soon") (some "short") (some "qq")
      ⟨by decide, by decide, by decide, by decide, by decide⟩⟩

/-- Claim C9 holds: for every valid request with a usable credential, when the
single fetch returns a 2xx response containing well-formed generated text `t`,
both handlers answer with exactly `t` as the email body — no post-processing,
truncation or sanitization — with no fallback note, and the result's source is
Generated. -/
theorem c9_generated_text_passthrough (b : ReqBody) (k : Option String) (t : String)
    (hval : truthy b.subject = true ∨ truthy b.purpose = true)
    (hopt : truthy b.language = true ∧ truthy b.tone = true ∧ truthy b.length = true)
    (hkey : truthy k = true)
    (hph : k ≠ some V1.apiKeyPlaceholder) :
    V1.postGenerateEmail b k (.ok (some t)) = .emailResp t none
    ∧ V2.postGenerateEmail b k (.ok (some t)) = .emailResp t none
    ∧ resultSource (V1.postGenerateEmail b k (.ok (some t))) = some .generated
    ∧ resultSource (V2.postGenerateEmail b k (.ok (some t))) = some .generated := by
  have h1 : (!truthy b.subject && !truthy b.purpose) = false := by
    rcases hval with h | h <;> simp [h]
  obtain ⟨hl, ht, hlen⟩ := hopt
  have hph2 : (k == some V1.apiKeyPlaceholder) = false := by
    simp only [beq_eq_false_iff_ne, ne_eq]
    exact hph
  have hv1 : V1.postGenerateEmail b k (.ok (some t)) = .emailResp t none := by
    simp [V1.postGenerateEmail, h1, hl, ht, hlen, hkey, hph2]
  have hv2 : V2.postGenerateEmail b k (.ok (some t)) = .emailResp t none := by
    simp [V2.postGenerateEmail, h1, hkey]
  refine ⟨hv1, hv2, ?_, ?_⟩
  · rw [hv1]
    rfl
  · rw [hv2]
    rfl

/-- Witness for `c9_generated_text_passthrough` at a concrete request and a
concrete provider string. -/
theorem c9_witness :
    (truthy (some "Hi") = true
      ∧ (truthy (some "en") = true ∧ truthy (some "formal") = true ∧ truthy (some "long") = true)
      ∧ truthy (some "real-key") = true
      ∧ (some "real-key" : Option String) ≠ some V1.apiKeyPlaceholder)
    ∧ (V1.postGenerateEmail
          { subject := some "Hi", tone := some "formal", length := some "long", language := some "en" }
          (some "real-key") (.ok (some "Subject: Hi\n\nDear Ann,\nAll the best."))
        = .emailResp "Subject: Hi\n\nDear Ann,\nAll the best." none
      ∧ V2.postGenerateEmail
            { subject := some "Hi", tone := some "formal", length := some "long", language := some "en" }
            (some "real-key") (.ok (some "Subject: Hi\n\nDear Ann,\nAll the best."))
          = .emailResp "Subject: Hi\n\nDear Ann,\nAll the best." none
      ∧ resultSource (V1.postGenerateEmail
            { subject := some "Hi", tone := some "formal", length := some "long", language := some "en" }
            (some "real-key") (.ok (some "Subject: Hi\n\nDear Ann,\nAll the best.")))
          = some .generated
      ∧ resultSource (V2.postGenerateEmail
            { subject := some "Hi", tone := some "formal", length := some "long", language := some "en" }
            (some "real-key") (.ok (some "Subject: Hi\n\nDear Ann,\nAll the best.")))
          = some .generated) :=
  ⟨⟨by decide, ⟨by decide, by decide, by decide⟩, by decide, by decide⟩,
    c9_generated_text_passthrough
      { subject := some "Hi", tone := some "formal", length := some "long", language := some "en" }
      (some "real-key") "Subject: Hi\n\nDear Ann,\nAll the best."
      (Or.inl (by decide)) ⟨by decide, by decide, by decide⟩ (by decide) (by decide)⟩

/-- Claim C10 holds: both fallback synthesizers treat an empty-string
`personalNote` exactly like an absent one — the produced texts are
byte-identical — and the personal-note paragraph (the `noteSeg` segment every
template splices in) is empty for an absent or empty note and is exactly the
note followed by a blank line for a non-empty note. -/
theorem c10_empty_note_like_absent (rn s t lang len : Option String) (n : String)
    (hn : n ≠ "") :
    V1.createFallbackEmail rn s t none lang len
        = V1.createFallbackEmail rn s t (some "") lang len
    ∧ V2.createFallbackEmail rn s t none lang len
        = V2.createFallbackEmail rn s t (some "") lang len
    ∧ noteSeg none = ""
    ∧ noteSeg (some "") = ""
    ∧ noteSeg (some n) = n ++ "\n\n" := by
  have key : noteSeg (none : Option String) = noteSeg (some "") := by decide
  have gen1 : ∀ p q : Option String, noteSeg p = noteSeg q →
      V1.createFallbackEmail rn s t p lang len = V1.createFallbackEmail rn s t q lang len := by
    intro p q hpq
    unfold V1.createFallbackEmail V1.fallbackTemplates V1.enTemplate
    rw [hpq]
  have gen2 : ∀ p q : Option String, noteSeg p = noteSeg q →
      V2.createFallbackEmail rn s t p lang len = V2.createFallbackEmail rn s t q lang len := by
    intro p q hpq
    unfold V2.createFallbackEmail V2.fallbackTemplates V2.enTemplate
    rw [hpq]
  have hbn : (n == "") = false := by
    simp only [beq_eq_false_iff_ne, ne_eq]
    exact hn
  refine ⟨gen1 none (some "") key, gen2 none (some "") key, by decide, by decide, ?_⟩
  simp [noteSeg, truthy, jsStr, hbn]

/-- Witness for `c10_empty_note_like_absent` at concrete fields and the
non-empty note "See you soon". -/
theorem c10_witness :
    ("See you soon" : String) ≠ ""
    ∧ (V1.createFallbackEmail (some "Ann") (some "Hi") (some "casual") none (some "en") (some "short")
          = V1.createFallbackEmail (some "Ann") (some "Hi") (some "casual") (some "") (some "en") (some "short")
      ∧ V2.createFallbackEmail (some "Ann") (some "Hi") (some "casual") none (some "en") (some "short")
          = V2.createFallbackEmail (some "Ann") (some "Hi") (some "casual") (some "") (some "en") (some "short")
      ∧ noteSeg none = ""
      ∧ noteSeg (some "") = ""
      ∧ noteSeg (some "See you soon") = "See you soon" ++ "\n\n") :=
  ⟨by decide,
    c10_empty_note_like_absent (some "Ann") (some "Hi") (some "casual") (some "en") (some "short")
      "See you soon" (by decide)⟩

end Mailora
